import Mathlib

/-!
Shallow embedding of the globalClipboard server core (src/server.js).

The server keeps a single SQLite table `uploads` plus an on-disk blob area
written by multer. We model the table as a list of rows (insertion order),
the blob area as a list of file paths, and each HTTP handler as a pure
function on this state. Timestamps are epoch milliseconds, modelled as Int.
-/

namespace GlobalClipboard

/-- A row of the `uploads` table (src/server.js, initDb, lines 29-46). -/
structure Row where
  id : String
  type : String
  content : String
  expiry : Int
  created_at : Int
  filename : Option String
  mime_type : Option String
  username : String
deriving DecidableEq

/-- Server state: the `uploads` table plus the blob area (the `uploads/`
directory holding multer-written files, identified by path). -/
structure Store where
  rows : List Row
  blobs : List String
deriving DecidableEq

/-- Deleting a path from the filesystem: `fs.unlink` with ENOENT ignored
(best-effort; a missing path is a no-op). -/
def unlinkBlob (ref : String) (blobs : List String) : List String :=
  blobs.filter (fun b => b != ref)

/-- performCleanup (src/server.js lines 49-85): SELECT the rows with
`expiry < now`, return early if none, otherwise unlink the blob referenced
by each file-kind row, then DELETE the rows with `expiry < now`, reporting
`this.changes` (the number of rows the DELETE removed). -/
def performCleanup (now : Int) (st : Store) : Nat × Store :=
  let expired := st.rows.filter (fun r => decide (r.expiry < now))
  if expired.isEmpty then
    (0, st)
  else
    let blobs := expired.foldl
      (fun bs r => if r.type == "file" then unlinkBlob r.content bs else bs)
      st.blobs
    let remaining := st.rows.filter (fun r => !(decide (r.expiry < now)))
    (st.rows.length - remaining.length, { rows := remaining, blobs := blobs })

/-- db.get on the primary key: the first (and, ids being unique, only) row
with the given id. Used by the download and delete handlers. -/
def getRow (id : String) (st : Store) : Option Row :=
  st.rows.find? (fun r => r.id == id)

/-- Response of GET /api/download/:id. -/
inductive DownloadResp where
  | notFound
  | expired
  | fileResp (path : String) (filename : Option String)
  | textResp (text : String)
deriving DecidableEq

/-- GET /api/download/:id handler (src/server.js lines 224-245): 404 when
the id is unknown, 410 when `row.expiry < now`, otherwise the payload
(file stream for file rows, literal text for text rows). -/
def downloadHandler (id : String) (now : Int) (st : Store) : DownloadResp :=
  match getRow id st with
  | none => .notFound
  | some row =>
    if row.expiry < now then .expired
    else if row.type == "file" then .fileResp row.content row.filename
    else .textResp row.content

/-- Response of DELETE /api/delete/:id. -/
inductive DeleteResp where
  | notFound
  | deleted
deriving DecidableEq

/-- Outcome of the delete handler: the HTTP response, the new state, and
which blob path (if any) the handler passed to fs.unlink. -/
structure DeleteOutcome where
  resp : DeleteResp
  store : Store
  unlinked : Option String
deriving DecidableEq

/-- DELETE /api/delete/:id handler (src/server.js lines 197-221): look the
row up; 404 if absent; otherwise unlink its blob when it is a file row,
then DELETE the row. -/
def deleteHandler (id : String) (st : Store) : DeleteOutcome :=
  match getRow id st with
  | none => ⟨.notFound, st, none⟩
  | some row =>
    let blobs := if row.type == "file" then unlinkBlob row.content st.blobs else st.blobs
    let rows := st.rows.filter (fun r => !(r.id == id))
    ⟨.deleted, { rows := rows, blobs := blobs },
      if row.type == "file" then some row.content else none⟩

/-- The multer file object fields the upload handler reads. -/
structure FileInfo where
  path : String
  originalname : String
  mimetype : String
deriving DecidableEq

/-- The request body fields of POST /api/upload. `text` and `username` are
form fields (absent or a string); `expiry` is the result of
`parseInt(req.body.expiry)`, with `none` standing for NaN. -/
structure UploadReq where
  text : Option String
  file : Option FileInfo
  expiry : Option Int
  username : Option String
deriving DecidableEq

/-- JavaScript falsiness of an optional string: undefined and the empty
string are falsy. -/
def jsStrFalsy : Option String → Bool
  | none => true
  | some s => s == ""

/-- The effective TTL in minutes: `parseInt(expiry) || 60` (so NaN and 0
both fall back to 60), then the two range checks of src/server.js lines
158-162. -/
def effectiveTtl (e : Option Int) : Int :=
  let m : Int :=
    match e with
    | none => 60
    | some n => if n == 0 then 60 else n
  let m1 := if m < 1 then 1 else m
  if m1 > 10080 then 10080 else m1

/-- Modelled from the spec: plain clamping of a TTL to [1, 10080],
the function the spec's `clamp(t)` denotes. Stated for comparison with
the code's `effectiveTtl`. -/
def clampSpec (t : Int) : Int :=
  if t < 1 then 1 else if t > 10080 then 10080 else t

/-- The username truncation of src/server.js lines 167-170:
`username.substring(0, 50)` applied only when the length exceeds 50. -/
def truncate50 (s : String) : String :=
  if s.length > 50 then String.mk (s.data.take 50) else s

/-- Response of POST /api/upload. -/
inductive UploadResp where
  | badRequest
  | created (id : String) (expiry : Int)
deriving DecidableEq

/-- POST /api/upload handler (src/server.js lines 144-182). `newId` is the
uuid generated for the row and `createdAt` is Date.now(). Rejects with 400
when neither a file nor (truthy) text is present; otherwise inserts one
row. (The blob written by multer before the handler runs is outside this
function; `content` references it by path.) -/
def uploadHandler (req : UploadReq) (newId : String) (createdAt : Int) (st : Store) :
    UploadResp × Store :=
  if req.file.isNone && jsStrFalsy req.text then
    (.badRequest, st)
  else
    let type := if req.file.isSome then "file" else "text"
    let content :=
      match req.file with
      | some f => f.path
      | none => req.text.getD ""
    let filename := req.file.map FileInfo.originalname
    let mime_type :=
      match req.file with
      | some f => some f.mimetype
      | none => some "text/plain"
    let expiryTime := createdAt + effectiveTtl req.expiry * 60000
    let uploaderName := truncate50
      (match req.username with
       | none => "web client"
       | some s => if s == "" then "web client" else s)
    let row : Row := ⟨newId, type, content, expiryTime, createdAt, filename, mime_type, uploaderName⟩
    (.created newId expiryTime, { st with rows := st.rows ++ [row] })

/-- The columns GET /api/list selects: id, type, created_at, expiry,
filename, username — never `content`. -/
structure ListEntry where
  id : String
  type : String
  created_at : Int
  expiry : Int
  filename : Option String
  username : String
deriving DecidableEq

/-- Projection of a row onto the listing columns. -/
def projRow (r : Row) : ListEntry :=
  ⟨r.id, r.type, r.created_at, r.expiry, r.filename, r.username⟩

/-- GET /api/list handler (src/server.js lines 185-194): the rows with
`expiry > now`, ordered by `created_at` DESC, projected onto the summary
columns. -/
def listLive (now : Int) (st : Store) : List ListEntry :=
  ((st.rows.filter (fun r => decide (r.expiry > now))).mergeSort
    (fun a b => decide (b.created_at ≤ a.created_at))).map projRow

/-- The credential channels a request can carry. -/
structure Cred where
  header : Option String
  query : Option String
  cookie : Option String
deriving DecidableEq

/-- JavaScript `a || b` on optional strings (empty string is falsy). -/
def jsOr (a b : Option String) : Option String :=
  match a with
  | some s => if s == "" then b else some s
  | none => b

/-- The key extraction of authenticateParams (src/server.js line 133):
`req.headers[x-api-key] || req.query.api_key || req.cookies.auth_token`. -/
def providedKey (c : Cred) : Option String :=
  jsOr c.header (jsOr c.query c.cookie)

/-- The check of authenticateParams (src/server.js line 134):
`providedKey && providedKey === API_KEY`. -/
def authOk (c : Cred) (apiKey : String) : Bool :=
  match providedKey c with
  | some k => (k != "") && (k == apiKey)
  | none => false

/-- A response of the API surface, tagged by endpoint. -/
inductive Resp where
  | unauthorized
  | download (d : DownloadResp)
  | upload (u : UploadResp)
  | listed (items : List ListEntry)
  | deleteResult (d : DeleteResp)
  | cleanupStarted
deriving DecidableEq

/-- GET /api/download/:id as routed: the only item route registered
without the authenticateParams middleware (src/server.js line 224), so the
credential is never consulted. -/
def downloadEndpoint (c : Cred) (apiKey : String) (id : String) (now : Int) (st : Store) : Resp :=
  Resp.download (downloadHandler id now st)

/-- GET /api/list as routed, behind authenticateParams. -/
def listEndpoint (c : Cred) (apiKey : String) (now : Int) (st : Store) : Resp :=
  if authOk c apiKey then .listed (listLive now st) else .unauthorized

/-- POST /api/upload as routed, behind authenticateParams. -/
def uploadEndpoint (c : Cred) (apiKey : String) (req : UploadReq) (newId : String)
    (createdAt : Int) (st : Store) : Resp × Store :=
  if authOk c apiKey then
    let r := uploadHandler req newId createdAt st
    (.upload r.1, r.2)
  else (.unauthorized, st)

/-- DELETE /api/delete/:id as routed, behind authenticateParams. -/
def deleteEndpoint (c : Cred) (apiKey : String) (id : String) (st : Store) : Resp × Store :=
  if authOk c apiKey then
    let o := deleteHandler id st
    (.deleteResult o.resp, o.store)
  else (.unauthorized, st)

/-- DELETE /api/cleanup as routed, behind authenticateParams. -/
def cleanupEndpoint (c : Cred) (apiKey : String) (now : Int) (st : Store) : Resp × Store :=
  if authOk c apiKey then (.cleanupStarted, (performCleanup now st).2) else (.unauthorized, st)

/-! Helper lemmas about the cleanup pass. -/

lemma length_filter_not_add (p : Row → Bool) (l : List Row) :
    (l.filter p).length + (l.filter (fun a => !(p a))).length = l.length := by
  induction l with
  | nil => simp
  | cons a t ih =>
    by_cases h : p a = true <;> simp [List.filter_cons, h, ← ih] <;> omega

lemma foldl_unlink (l : List Row) (bs : List String) :
    l.foldl (fun acc r => if r.type == "file" then unlinkBlob r.content acc else acc) bs
      = bs.filter (fun b => !(l.any (fun r => r.type == "file" && r.content == b))) := by
  induction l generalizing bs with
  | nil => simp
  | cons r t ih =>
    simp only [List.foldl_cons, List.any_cons]
    by_cases h : (r.type == "file") = true
    · rw [if_pos h, ih, unlinkBlob, List.filter_filter]
      apply List.filter_congr
      intro b hb
      simp only [h, Bool.true_and, Bool.not_or]
      cases h1 : b == r.content <;> cases h2 : r.content == b <;>
        simp_all [beq_iff_eq, Bool.and_comm]
    · rw [if_neg h, ih]
      apply List.filter_congr
      intro b hb
      simp [Bool.eq_false_iff.mpr h]

lemma cleanup_count (now : Int) (st : Store) :
    (performCleanup now st).1 = (st.rows.filter (fun r => decide (r.expiry < now))).length := by
  unfold performCleanup
  by_cases h : (st.rows.filter (fun r => decide (r.expiry < now))).isEmpty = true
  · rw [if_pos h]
    rw [List.isEmpty_iff.mp h]
    rfl
  · rw [if_neg h]
    have := length_filter_not_add (fun r => decide (r.expiry < now)) st.rows
    have hle := List.length_filter_le (fun r => decide (r.expiry < now)) st.rows
    simp only
    omega

lemma cleanup_rows (now : Int) (st : Store) :
    (performCleanup now st).2.rows = st.rows.filter (fun r => !(decide (r.expiry < now))) := by
  unfold performCleanup
  by_cases h : (st.rows.filter (fun r => decide (r.expiry < now))).isEmpty = true
  · rw [if_pos h]
    have h0 := List.filter_eq_nil_iff.mp (List.isEmpty_iff.mp h)
    exact (List.filter_eq_self.mpr (fun a ha => by simp [h0 a ha])).symm
  · rw [if_neg h]

lemma cleanup_blobs (now : Int) (st : Store) :
    (performCleanup now st).2.blobs
      = st.blobs.filter (fun b =>
          !((st.rows.filter (fun r => decide (r.expiry < now))).any
              (fun r => r.type == "file" && r.content == b))) := by
  unfold performCleanup
  by_cases h : (st.rows.filter (fun r => decide (r.expiry < now))).isEmpty = true
  · rw [if_pos h]
    rw [List.isEmpty_iff.mp h]
    simp
  · rw [if_neg h]
    exact foldl_unlink _ _

lemma cleanup_noop (now : Int) (st : Store)
    (h : st.rows.filter (fun r => decide (r.expiry < now)) = []) :
    performCleanup now st = (0, st) := by
  unfold performCleanup
  rw [h]
  simp

/-- C1 counterexample: at `now = 100` a row with `expiry = 100` satisfies
`expiresAt <= now`, so the claim says it is selected and deleted and
counted; `performCleanup` (which compares with strict `<`) deletes
nothing and reports 0. -/
theorem C1_counterexample :
    (performCleanup 100
        ⟨[⟨"a", "text", "hi", 100, 0, none, some "text/plain", "web client"⟩], []⟩).1 = 0
    ∧ ((⟨[⟨"a", "text", "hi", 100, 0, none, some "text/plain", "web client"⟩], []⟩ : Store).rows.filter
          (fun r => decide (r.expiry ≤ 100))).length = 1
    ∧ (⟨"a", "text", "hi", 100, 0, none, some "text/plain", "web client"⟩ : Row)
        ∈ (performCleanup 100
            ⟨[⟨"a", "text", "hi", 100, 0, none, some "text/plain", "web client"⟩], []⟩).2.rows := by
  decide

/-- C1 (amended): for every store state and time `now`, the cleanup pass
selects exactly the rows with `expiry < now` (strictly before `now`, not
`expiresAt <= now`), removes the blob referenced by each selected
file-kind row from the blob area, deletes all and only the selected rows,
and returns the number of rows removed. -/
theorem C1_deleteExpired (now : Int) (st : Store) :
    (performCleanup now st).1 = (st.rows.filter (fun r => decide (r.expiry < now))).length
    ∧ (performCleanup now st).2.rows = st.rows.filter (fun r => !(decide (r.expiry < now)))
    ∧ (performCleanup now st).2.blobs
        = st.blobs.filter (fun b =>
            !((st.rows.filter (fun r => decide (r.expiry < now))).any
                (fun r => r.type == "file" && r.content == b))) :=
  ⟨cleanup_count now st, cleanup_rows now st, cleanup_blobs now st⟩

/-- C5 counterexample: with a single row whose `expiry` equals `now`,
running the cleanup twice leaves a row with `expiresAt <= now` in the
store, contrary to the claim that none remains. -/
theorem C5_counterexample :
    (⟨"a", "text", "hi", 100, 0, none, some "text/plain", "web client"⟩ : Row)
      ∈ (performCleanup 100 (performCleanup 100
          ⟨[⟨"a", "text", "hi", 100, 0, none, some "text/plain", "web client"⟩], []⟩).2).2.rows
    ∧ (⟨"a", "text", "hi", 100, 0, none, some "text/plain", "web client"⟩ : Row).expiry ≤ 100 := by
  decide

/-- C5 (amended): running the cleanup twice in a row with the same `now`
is idempotent: the second run returns count 0 and leaves the store
unchanged, and after it no row with `expiry < now` (strictly expired)
remains; a row with `expiry = now` exactly may remain. -/
theorem C5_cleanup_idempotent (now : Int) (st : Store) :
    (performCleanup now (performCleanup now st).2).1 = 0
    ∧ (performCleanup now (performCleanup now st).2).2 = (performCleanup now st).2
    ∧ ∀ r ∈ (performCleanup now (performCleanup now st).2).2.rows, ¬ (r.expiry < now) := by
  have h1 := cleanup_rows now st
  have hsel : (performCleanup now st).2.rows.filter (fun r => decide (r.expiry < now)) = [] := by
    rw [h1, List.filter_filter]
    apply List.filter_eq_nil_iff.mpr
    intro a _
    simp
  have h2 := cleanup_noop now (performCleanup now st).2 hsel
  refine ⟨by rw [h2], by rw [h2], ?_⟩
  intro r hr
  rw [h2] at hr
  rw [h1] at hr
  have := (List.mem_filter.mp hr).2
  simpa using this

/-- C5 witness: the idempotence theorem applied to a concrete store whose
single row survives the sweep. -/
theorem C5_witness :
    ¬ ((⟨"a", "text", "hi", 200, 0, none, some "text/plain", "web client"⟩ : Row).expiry < 100) :=
  (C5_cleanup_idempotent 100
      ⟨[⟨"a", "text", "hi", 200, 0, none, some "text/plain", "web client"⟩], []⟩).2.2
    _ (by decide)

/-- C2: for every store state and time `now`, the listing contains an
entry iff it is the projection of a stored row with `expiry > now`; the
result is ordered by `created_at` descending; and the result never
depends on any row's `content` field (summary projection only), so no
payload body is ever included. -/
theorem C2_listLive (now : Int) (st : Store) :
    (∀ e, e ∈ listLive now st ↔ ∃ r, r ∈ st.rows ∧ r.expiry > now ∧ e = projRow r)
    ∧ (listLive now st).Pairwise (fun a b => b.created_at ≤ a.created_at)
    ∧ ∀ f : Row → String,
        listLive now ⟨st.rows.map (fun r => { r with content := f r }), st.blobs⟩
          = listLive now st := by
  refine ⟨?_, ?_, ?_⟩
  · intro e
    simp only [listLive, List.mem_map, List.mem_mergeSort, List.mem_filter, decide_eq_true_eq]
    constructor
    · rintro ⟨r, ⟨hr, hlt⟩, he⟩
      exact ⟨r, hr, hlt, he.symm⟩
    · rintro ⟨r, hr, hlt, he⟩
      exact ⟨r, ⟨hr, hlt⟩, he.symm⟩
  · have hs := @List.sorted_mergeSort Row
      (fun a b : Row => decide (b.created_at ≤ a.created_at))
      (fun a b c hab hbc => by
        simp only [decide_eq_true_eq] at *
        omega)
      (fun a b => by
        simp only [Bool.or_eq_true, decide_eq_true_eq]
        omega)
      (st.rows.filter (fun r => decide (r.expiry > now)))
    unfold listLive
    exact List.pairwise_map.mpr (hs.imp (fun h => by simpa using h))
  · intro f
    unfold listLive
    have hf : (fun r : Row => decide (r.expiry > now)) ∘ (fun r => { r with content := f r })
        = fun r : Row => decide (r.expiry > now) := rfl
    rw [List.filter_map, hf]
    rw [← List.map_mergeSort
      (r := fun a b : Row => decide (b.created_at ≤ a.created_at))
      (s := fun a b : Row => decide (b.created_at ≤ a.created_at))
      (f := fun r : Row => { r with content := f r })
      (fun a _ b _ => rfl)]
    rw [List.map_map]
    rfl

lemma find?_id_eq (id : String) (l : List Row) (r : Row) (hr : r ∈ l)
    (hnd : (l.map Row.id).Nodup) (hid : r.id = id) :
    l.find? (fun x => x.id == id) = some r := by
  induction l with
  | nil => cases hr
  | cons a t ih =>
    rw [List.map_cons] at hnd
    have hnd' := List.nodup_cons.mp hnd
    rcases List.mem_cons.mp hr with h | h
    · subst h
      simp [List.find?_cons, hid]
    · have hne : (a.id == id) = false := by
        apply beq_eq_false_iff_ne.mpr
        intro he
        exact hnd'.1 (he ▸ hid ▸ List.mem_map_of_mem Row.id h)
      rw [List.find?_cons, hne]
      exact ih h hnd'.2

/-- C4 counterexample: for a known id whose row has `expiry = now` (so
`expiresAt <= now`, not live), the claim requires the Expired response;
the handler compares with strict `<` and serves the payload. -/
theorem C4_counterexample :
    getRow "a" ⟨[⟨"a", "text", "hi", 100, 0, none, some "text/plain", "web client"⟩], []⟩
      = some ⟨"a", "text", "hi", 100, 0, none, some "text/plain", "web client"⟩
    ∧ (⟨"a", "text", "hi", 100, 0, none, some "text/plain", "web client"⟩ : Row).expiry ≤ 100
    ∧ downloadHandler "a" 100
        ⟨[⟨"a", "text", "hi", 100, 0, none, some "text/plain", "web client"⟩], []⟩
      = .textResp "hi" := by
  decide

/-- C4 (amended): download returns NotFound exactly when no row has the
id; when a row exists, `get` returns it regardless of liveness (given the
primary-key uniqueness of ids), and download returns Expired (distinct
from NotFound) exactly when `expiry < now` strictly — a row with
`expiry = now` is still served — and otherwise returns the payload. -/
theorem C4_download (id : String) (now : Int) (st : Store) :
    (getRow id st = none ↔ downloadHandler id now st = .notFound)
    ∧ (∀ r, getRow id st = some r →
        ((downloadHandler id now st = .expired) ↔ r.expiry < now)
        ∧ (now ≤ r.expiry →
            downloadHandler id now st =
              if r.type == "file" then .fileResp r.content r.filename
              else .textResp r.content))
    ∧ (∀ r ∈ st.rows, (st.rows.map Row.id).Nodup → r.id = id → getRow id st = some r) := by
  refine ⟨?_, ?_, ?_⟩
  · cases h : getRow id st with
    | none => simp [downloadHandler, h]
    | some r =>
      simp only [downloadHandler, h]
      constructor
      · intro hc; cases hc
      · intro hc
        split at hc
        · cases hc
        · split at hc <;> cases hc
  · intro r h
    constructor
    · simp only [downloadHandler, h]
      constructor
      · intro hc
        split at hc
        · assumption
        · split at hc <;> cases hc
      · intro hlt
        rw [if_pos hlt]
    · intro hle
      simp only [downloadHandler, h]
      rw [if_neg (by omega)]
  · intro r hr hnd hid
    exact find?_id_eq id st.rows r hr hnd hid

/-- C4 witness: the amended download theorem applied to a concrete store
with one live row, discharging each hypothesis. -/
theorem C4_witness :
    downloadHandler "a" 50
        ⟨[⟨"a", "text", "hi", 100, 0, none, some "text/plain", "web client"⟩], []⟩
      = .textResp "hi"
    ∧ getRow "a" ⟨[⟨"a", "text", "hi", 100, 0, none, some "text/plain", "web client"⟩], []⟩
      = some ⟨"a", "text", "hi", 100, 0, none, some "text/plain", "web client"⟩ := by
  refine ⟨?_, ?_⟩
  · have h := ((C4_download "a" 50
        ⟨[⟨"a", "text", "hi", 100, 0, none, some "text/plain", "web client"⟩], []⟩).2.1
      ⟨"a", "text", "hi", 100, 0, none, some "text/plain", "web client"⟩ (by decide)).2
      (by decide)
    simpa using h
  · exact (C4_download "a" 50
        ⟨[⟨"a", "text", "hi", 100, 0, none, some "text/plain", "web client"⟩], []⟩).2.2
      ⟨"a", "text", "hi", 100, 0, none, some "text/plain", "web client"⟩
      (by decide) (by decide) (by decide)

lemma deleteHandler_some (id : String) (st : Store) (r : Row) (h : getRow id st = some r) :
    deleteHandler id st
      = ⟨.deleted,
          ⟨st.rows.filter (fun x => !(x.id == id)),
            if r.type == "file" then unlinkBlob r.content st.blobs else st.blobs⟩,
          if r.type == "file" then some r.content else none⟩ := by
  unfold deleteHandler
  rw [h]

lemma getRow_filter_ne (id : String) (l : List Row) (bs : List String) :
    getRow id ⟨l.filter (fun x => !(x.id == id)), bs⟩ = none := by
  unfold getRow
  apply List.find?_eq_none.mpr
  intro x hx
  have hx2 := (List.mem_filter.mp hx).2
  simp_all

/-- C6: deleting an id not present in the store returns NotFound with the
store unchanged and no blob unlink attempted; and after a successful
delete of an id, a second delete of the same id observes NotFound and
attempts no blob deletion, so deletion is idempotent. -/
theorem C6_delete_idempotent (id : String) (st : Store) :
    (getRow id st = none → deleteHandler id st = ⟨.notFound, st, none⟩)
    ∧ (∀ r, getRow id st = some r →
        (deleteHandler id st).resp = .deleted
        ∧ deleteHandler id (deleteHandler id st).store
            = ⟨.notFound, (deleteHandler id st).store, none⟩) := by
  constructor
  · intro h
    unfold deleteHandler
    rw [h]
  · intro r h
    have hd := deleteHandler_some id st r h
    refine ⟨by rw [hd], ?_⟩
    rw [hd]
    dsimp only
    have h2 := getRow_filter_ne id st.rows
      (if r.type == "file" then unlinkBlob r.content st.blobs else st.blobs)
    unfold deleteHandler
    rw [h2]

/-- C6 witness: the deletion theorem applied to a concrete one-row store
(second part) and to an id absent from it (first part). -/
theorem C6_witness :
    (deleteHandler "a"
        ⟨[⟨"a", "file", "uploads/x", 100, 0, some "x.txt", some "text/plain", "web client"⟩],
          ["uploads/x"]⟩).resp = .deleted
    ∧ deleteHandler "b"
        ⟨[⟨"a", "file", "uploads/x", 100, 0, some "x.txt", some "text/plain", "web client"⟩],
          ["uploads/x"]⟩
      = ⟨.notFound,
          ⟨[⟨"a", "file", "uploads/x", 100, 0, some "x.txt", some "text/plain", "web client"⟩],
            ["uploads/x"]⟩, none⟩ := by
  constructor
  · exact ((C6_delete_idempotent "a"
        ⟨[⟨"a", "file", "uploads/x", 100, 0, some "x.txt", some "text/plain", "web client"⟩],
          ["uploads/x"]⟩).2
      ⟨"a", "file", "uploads/x", 100, 0, some "x.txt", some "text/plain", "web client"⟩
      (by decide)).1
  · exact (C6_delete_idempotent "b"
        ⟨[⟨"a", "file", "uploads/x", 100, 0, some "x.txt", some "text/plain", "web client"⟩],
          ["uploads/x"]⟩).1 (by decide)

/-- C3 counterexample: the TTL input 0 is falsy in JavaScript, so
`parseInt(expiry) || 60` replaces it with the default 60 rather than
clamping it to 1: the effective TTL at input 0 is 60, not `clamp(0) = 1`,
and the created row expires `60 * 60000` ms after creation. -/
theorem C3_counterexample :
    effectiveTtl (some 0) = 60
    ∧ clampSpec 0 = 1
    ∧ effectiveTtl (some 0) ≠ clampSpec 0
    ∧ (uploadHandler ⟨some "hi", none, some 0, none⟩ "i" 0 ⟨[], []⟩).1
        = .created "i" 3600000 := by
  decide

lemma effectiveTtl_bounds (e : Option Int) :
    1 ≤ effectiveTtl e ∧ effectiveTtl e ≤ 10080 := by
  rcases e with _ | n
  · decide
  · unfold effectiveTtl
    dsimp only
    constructor <;> (split <;> split <;> omega)

/-- C3 (amended): a nonzero parseable TTL input `t` is clamped to
`[1, 10080]` minutes, never rejected; an input of 0 (or an unparseable
one) falls back to the default of 60 minutes instead of being clamped;
the effective TTL always lies in `[1, 10080]`; and a created item's
`expiry` equals `createdAt + effectiveTtl * 60000` milliseconds. -/
theorem C3_ttl (t : Int) (req : UploadReq) (newId : String) (createdAt : Int) (st : Store) :
    (t ≠ 0 → effectiveTtl (some t) = clampSpec t)
    ∧ effectiveTtl none = 60
    ∧ effectiveTtl (some 0) = 60
    ∧ (1 ≤ effectiveTtl req.expiry ∧ effectiveTtl req.expiry ≤ 10080)
    ∧ (∀ id e, (uploadHandler req newId createdAt st).1 = .created id e →
        e = createdAt + effectiveTtl req.expiry * 60000) := by
  refine ⟨?_, rfl, rfl, effectiveTtl_bounds req.expiry, ?_⟩
  · intro ht
    unfold effectiveTtl clampSpec
    simp only [beq_iff_eq]
    rw [if_neg ht]
    split
    · rw [if_neg (show ¬ ((1 : Int) > 10080) by omega)]
    · rfl
  · intro id e h
    unfold uploadHandler at h
    split at h
    · cases h
    · simp only [UploadResp.created.injEq] at h
      exact h.2.symm

/-- C3 witness: the TTL theorem applied at the concrete nonzero input -5
(clamped to 1) and to a concrete upload with TTL 7. -/
theorem C3_witness :
    effectiveTtl (some (-5)) = clampSpec (-5)
    ∧ (420000 : Int) = 0 + effectiveTtl (some 7) * 60000 := by
  constructor
  · exact (C3_ttl (-5) ⟨some "hi", none, some (-5), none⟩ "i" 0 ⟨[], []⟩).1 (by decide)
  · exact (C3_ttl 7 ⟨some "hi", none, some 7, none⟩ "i" 0 ⟨[], []⟩).2.2.2.2
      "i" 420000 (by decide)

/-- C7: an upload carrying neither a file nor (truthy) text is rejected
with 400 before any row is written, leaving the store unchanged, so a
subsequent listing returns the same entries and the same count. -/
theorem C7_upload_rejected (req : UploadReq) (newId : String) (createdAt now : Int)
    (st : Store) (hf : req.file = none) (ht : jsStrFalsy req.text = true) :
    uploadHandler req newId createdAt st = (.badRequest, st)
    ∧ listLive now (uploadHandler req newId createdAt st).2 = listLive now st
    ∧ (listLive now (uploadHandler req newId createdAt st).2).length
        = (listLive now st).length := by
  have h : uploadHandler req newId createdAt st = (.badRequest, st) := by
    unfold uploadHandler
    rw [if_pos (by simp [hf, ht])]
  exact ⟨h, by rw [h], by rw [h]⟩

/-- C7 witness: the rejection theorem applied to the empty request and
the empty store. -/
theorem C7_witness :
    uploadHandler ⟨none, none, none, none⟩ "i" 0 ⟨[], []⟩ = (.badRequest, ⟨[], []⟩)
    ∧ listLive 0 (uploadHandler ⟨none, none, none, none⟩ "i" 0 ⟨[], []⟩).2
        = listLive 0 ⟨[], []⟩ :=
  ⟨(C7_upload_rejected ⟨none, none, none, none⟩ "i" 0 0 ⟨[], []⟩ rfl rfl).1,
   (C7_upload_rejected ⟨none, none, none, none⟩ "i" 0 0 ⟨[], []⟩ rfl rfl).2.1⟩

lemma uploadHandler_accepted (req : UploadReq) (newId : String) (createdAt : Int)
    (st : Store) (h : (req.file.isNone && jsStrFalsy req.text) = false) :
    uploadHandler req newId createdAt st
      = (.created newId (createdAt + effectiveTtl req.expiry * 60000),
         { st with rows := st.rows ++
            [⟨newId,
              if req.file.isSome then "file" else "text",
              (match req.file with
               | some f => f.path
               | none => req.text.getD ""),
              createdAt + effectiveTtl req.expiry * 60000,
              createdAt,
              req.file.map FileInfo.originalname,
              (match req.file with
               | some f => some f.mimetype
               | none => some "text/plain"),
              truncate50
                (match req.username with
                 | none => "web client"
                 | some s => if s == "" then "web client" else s)⟩] }) := by
  unfold uploadHandler
  rw [if_neg (by simp [h])]

lemma truncate50_length_le (s : String) : (truncate50 s).length ≤ 50 := by
  unfold truncate50
  split
  · show (s.data.take 50).length ≤ 50
    rw [List.length_take]
    omega
  · omega

/-- C8: the stored ownerLabel is the supplied (nonempty) label truncated
to at most 50 characters — a label of length 80 is stored as exactly its
first 50 characters — and an absent (or empty, hence falsy) label
defaults to "web client". -/
theorem C8_ownerLabel (req : UploadReq) (newId : String) (createdAt : Int) (st : Store)
    (h : (req.file.isNone && jsStrFalsy req.text) = false) :
    ∃ row : Row,
      (uploadHandler req newId createdAt st).2.rows = st.rows ++ [row]
      ∧ row.username.length ≤ 50
      ∧ (∀ s, req.username = some s → s ≠ "" → row.username = truncate50 s)
      ∧ (∀ s, req.username = some s → s.length = 80 →
          row.username = String.mk (s.data.take 50) ∧ row.username.length = 50)
      ∧ ((req.username = none ∨ req.username = some "") → row.username = "web client") := by
  rw [uploadHandler_accepted req newId createdAt st h]
  refine ⟨_, rfl, truncate50_length_le _, ?_, ?_, ?_⟩
  · intro s hs hne
    rw [hs]
    simp [hne]
  · intro s hs h80
    have hne : s ≠ "" := by
      intro he
      rw [he] at h80
      simp at h80
    rw [hs]
    simp only [hne, if_neg, beq_iff_eq, if_false]
    have hgt : s.length > 50 := by omega
    unfold truncate50
    rw [if_pos hgt]
    refine ⟨rfl, ?_⟩
    show (s.data.take 50).length = 50
    rw [List.length_take]
    have : s.data.length = 80 := h80
    omega
  · intro hu
    rcases hu with hu | hu <;> rw [hu] <;>
      exact (by decide : truncate50 "web client" = "web client")

/-- C8 witness: the ownerLabel theorem applied to a concrete text upload
carrying an 80-character label. -/
theorem C8_witness :
    ((uploadHandler
        ⟨some "hi", none, none,
          some "aaaaaaaaaaaaaaaaaaaaaaaaaaaaaaaaaaaaaaaaaaaaaaaaaaaaaaaaaaaaaaaaaaaaaaaaaaaaaaaa"⟩
        "i" 0 ⟨[], []⟩).2.rows.map Row.username)
      = [String.mk
          (("aaaaaaaaaaaaaaaaaaaaaaaaaaaaaaaaaaaaaaaaaaaaaaaaaaaaaaaaaaaaaaaaaaaaaaaaaaaaaaaa" : String).data.take 50)] := by
  obtain ⟨row, hrows, hle, htr, h80, hdef⟩ := C8_ownerLabel
    ⟨some "hi", none, none,
      some "aaaaaaaaaaaaaaaaaaaaaaaaaaaaaaaaaaaaaaaaaaaaaaaaaaaaaaaaaaaaaaaaaaaaaaaaaaaaaaaa"⟩
    "i" 0 ⟨[], []⟩ (by decide)
  rw [hrows]
  simp only [List.nil_append, List.map_cons, List.map_nil]
  rw [(h80 _ rfl (by decide)).1]

/-- C9 counterexample: a text upload stores `mime_type` as "text/plain",
not null/absent as the claim states. -/
theorem C9_counterexample :
    ((uploadHandler ⟨some "hi", none, none, none⟩ "i" 0 ⟨[], []⟩).2.rows.map Row.type)
      = ["text"]
    ∧ ((uploadHandler ⟨some "hi", none, none, none⟩ "i" 0 ⟨[], []⟩).2.rows.map Row.mime_type)
      = [some "text/plain"]
    ∧ some "text/plain" ≠ (none : Option String) := by
  refine ⟨rfl, rfl, by simp⟩

/-- C9 (amended): an item created with kind text has `filename` null, but
its `mime_type` is the constant "text/plain" (the handler writes
`file ? file.mimetype : "text/plain"`), so only `filename` is reserved to
file-kind items; `mime_type` is populated for both kinds. -/
theorem C9_text_fields (req : UploadReq) (newId : String) (createdAt : Int) (st : Store)
    (hf : req.file = none) (ht : jsStrFalsy req.text = false) :
    ∃ row : Row,
      (uploadHandler req newId createdAt st).2.rows = st.rows ++ [row]
      ∧ row.type = "text" ∧ row.filename = none ∧ row.mime_type = some "text/plain" := by
  rw [uploadHandler_accepted req newId createdAt st (by simp [hf, ht])]
  refine ⟨_, rfl, ?_, ?_, ?_⟩ <;> rw [hf] <;> rfl

/-- C9 witness: the amended theorem applied to a concrete text upload. -/
theorem C9_witness :
    ((uploadHandler ⟨some "note", none, none, none⟩ "j" 5 ⟨[], []⟩).2.rows.map Row.filename)
      = [none]
    ∧ ((uploadHandler ⟨some "note", none, none, none⟩ "j" 5 ⟨[], []⟩).2.rows.map Row.mime_type)
      = [some "text/plain"] := by
  obtain ⟨row, hrows, hty, hfn, hmt⟩ := C9_text_fields
    ⟨some "note", none, none, none⟩ "j" 5 ⟨[], []⟩ rfl rfl
  rw [hrows]
  simp only [List.nil_append, List.map_cons, List.map_nil]
  rw [hfn, hmt]
  exact ⟨rfl, rfl⟩

/-- C10: the download route is registered without the authentication
middleware, so its response is identical for any two credentials (valid,
invalid or absent, in any channel) and is never Unauthorized; upload,
list, delete and cleanup all answer Unauthorized whenever no valid key is
presented. -/
theorem C10_download_public (c1 c2 : Cred) (apiKey id : String) (now createdAt : Int)
    (st : Store) (req : UploadReq) (newId : String) :
    downloadEndpoint c1 apiKey id now st = downloadEndpoint c2 apiKey id now st
    ∧ downloadEndpoint c1 apiKey id now st ≠ .unauthorized
    ∧ (authOk c1 apiKey = false →
        uploadEndpoint c1 apiKey req newId createdAt st = (.unauthorized, st)
        ∧ listEndpoint c1 apiKey now st = .unauthorized
        ∧ deleteEndpoint c1 apiKey id st = (.unauthorized, st)
        ∧ cleanupEndpoint c1 apiKey now st = (.unauthorized, st)) := by
  refine ⟨rfl, ?_, ?_⟩
  · intro hc
    cases hc
  · intro h
    exact ⟨by simp [uploadEndpoint, h], by simp [listEndpoint, h],
           by simp [deleteEndpoint, h], by simp [cleanupEndpoint, h]⟩

/-- C10 witness: the theorem applied to a wrong-key credential against
the key "k": download answers identically for the wrong and the right
key, and the authenticated routes answer Unauthorized. -/
theorem C10_witness :
    downloadEndpoint ⟨some "wrong", none, none⟩ "k" "a" 0 ⟨[], []⟩
      = downloadEndpoint ⟨some "k", none, none⟩ "k" "a" 0 ⟨[], []⟩
    ∧ listEndpoint ⟨some "wrong", none, none⟩ "k" 0 ⟨[], []⟩ = .unauthorized := by
  constructor
  · exact (C10_download_public ⟨some "wrong", none, none⟩ ⟨some "k", none, none⟩
      "k" "a" 0 0 ⟨[], []⟩ ⟨none, none, none, none⟩ "i").1
  · exact ((C10_download_public ⟨some "wrong", none, none⟩ ⟨some "k", none, none⟩
      "k" "a" 0 0 ⟨[], []⟩ ⟨none, none, none, none⟩ "i").2.2 (by decide)).2.1

end GlobalClipboard
